import Mathlib

/-!
Shallow embedding of the Data_Catalog_RAG text-to-Cypher pipeline.

The definitions below are translated from the repository sources:
`backend_api.py` (FastAPI backend: question answering, raw query endpoint,
lineage traversal, summarization), `app.py` (Streamlit front end with its
own summarizer), `src/agent.py` (LLM agent pipeline) and
`src/neo4j_setup.py` (administrative ingestion).  External services (the
OpenAI chat endpoint and the Neo4j server) are black boxes per the
request/response contract, so every embedded operation takes the outcome
of those calls as an explicit argument and additionally reports, as plain
counters, how many model calls it performed and how many graph-store
sessions it opened.  Definitions whose names start with `spec` follow the
words of the specification instead and exist only to be compared with the
code.

Python string primitives (`split`, `replace`, `strip`, `in`, `upper`,
`startswith`, `join`, `capitalize`) are reimplemented over `List Char`
with structural or fuel recursion so that every embedded function is
evaluable by the kernel on concrete inputs.
-/

namespace Catalog

/-! ## Python string primitives -/

/-- First occurrence of `sep` in a character list: `some (pre, post)`
where `pre` is the text before the occurrence and `post` the text after
it, or `none` when `sep` does not occur.  The scan is left to right, as
in Python. -/
def breakOnSub (sep : List Char) : List Char → Option (List Char × List Char)
  | [] => if sep.isEmpty then some ([], []) else none
  | c :: cs =>
    if sep.isPrefixOf (c :: cs) then some ([], (c :: cs).drop sep.length)
    else (breakOnSub sep cs).map (fun pq => (c :: pq.1, pq.2))

/-- Fuel-driven split on a separator; with enough fuel this is the
left-to-right, non-overlapping split of Python `str.split(sep)`. -/
def splitOnFuel (sep : List Char) : Nat → List Char → List (List Char)
  | 0, l => [l]
  | fuel + 1, l =>
    match breakOnSub sep l with
    | none => [l]
    | some (pre, post) => pre :: splitOnFuel sep fuel post

/-- Python `s.split(sep)` for a nonempty `sep`, over character lists.
Each occurrence consumes at least one character, so `l.length + 1` fuel
always suffices. -/
def splitOnL (sep l : List Char) : List (List Char) :=
  splitOnFuel sep (l.length + 1) l

/-- Python whitespace test restricted to the characters that occur in
this code base (space, tab, carriage return, newline). -/
def isPySpace (c : Char) : Bool :=
  c = ' ' || c = '\t' || c = '\r' || c = '\n'

/-- Python `str.strip()` over character lists. -/
def trimL (l : List Char) : List Char :=
  ((l.dropWhile isPySpace).reverse.dropWhile isPySpace).reverse

/-- Python `sep.join(parts)` over character lists. -/
def joinL (sep : List Char) (parts : List (List Char)) : List Char :=
  match parts with
  | [] => []
  | p :: rest => p ++ (rest.map (fun q => sep ++ q)).flatten

/-- Python `s.split(sep)` on strings (for nonempty `sep`). -/
def pySplit (s sep : String) : List String :=
  (splitOnL sep.data s.data).map String.mk

/-- Python `sub in s` on strings (for nonempty `sub`). -/
def pyContains (s sub : String) : Bool :=
  (breakOnSub sub.data s.data).isSome

/-- Python `s.replace(old, new)` on strings: every non-overlapping
occurrence of `old`, left to right, becomes `new`. -/
def pyReplace (s old new : String) : String :=
  String.mk (joinL new.data (splitOnL old.data s.data))

/-- Python `s.strip()` on strings. -/
def pyTrim (s : String) : String :=
  String.mk (trimL s.data)

/-- Python `s.upper()` on strings (ASCII). -/
def pyUpper (s : String) : String :=
  String.mk (s.data.map Char.toUpper)

/-- Python `s.lower()` on strings (ASCII). -/
def pyLower (s : String) : String :=
  String.mk (s.data.map Char.toLower)

/-- Python `s.startswith(p)` on strings. -/
def pyStartsWith (s p : String) : Bool :=
  p.data.isPrefixOf s.data

/-- Python `sep.join(parts)` on strings. -/
def pyJoin (sep : String) (parts : List String) : String :=
  String.mk (joinL sep.data (parts.map String.data))

/-- Python `str.capitalize`: first character uppercased, the rest
lowercased. -/
def pyCapitalize (s : String) : String :=
  match s.data with
  | [] => ""
  | c :: cs => String.mk (c.toUpper :: cs.map Char.toLower)

/-- Python truthiness of an optional environment string: `if not KEY`
is taken when the variable is unset or the empty string. -/
def pyTruthy : Option String → Bool
  | none => false
  | some s => !s.isEmpty

/-! ## Response parser
(`backend_api.py`, `generate_cypher_from_question`, lines 136-161) -/

/-- The fixed keyword prefixes of the fallback scan:
`line.strip().upper().startswith(('MATCH', 'RETURN', 'WHERE', 'WITH',
'CREATE', 'MERGE'))`. -/
def fallbackKeywords : List String :=
  ["MATCH", "RETURN", "WHERE", "WITH", "CREATE", "MERGE"]

/-- Whether a reply line turns the fallback scan on: its stripped,
upper-cased form starts with one of the fixed keywords (a prefix test,
exactly as in the source). -/
def lineTriggers (line : String) : Bool :=
  fallbackKeywords.any (fun k => pyStartsWith (pyUpper (pyTrim line)) k)

/-- The fallback loop of the parser: once a line triggers, `in_cypher`
stays true and that line and every later line are accumulated. -/
def fallbackScanFrom (inCypher : Bool) : List String → List String
  | [] => []
  | line :: rest =>
    let inC := inCypher || lineTriggers line
    if inC then line :: fallbackScanFrom inC rest
    else fallbackScanFrom inC rest

/-- The fallback scan started with `in_cypher = False`. -/
def fallbackScan (lines : List String) : List String :=
  fallbackScanFrom false lines

/-- The fixed explanation returned by the fallback path of the parser. -/
def fallbackExplanation : String :=
  "Generated Cypher query for your question."

/-- Parse of the model reply in `generate_cypher_from_question`
(`backend_api.py` lines 139-159), returning
`(explanation, cypher_query)`.  Primary path when both markers occur:
`content.split("CYPHER:")`, part 0 with every `EXPLANATION:` removed and
stripped is the explanation, part 1 stripped is the query.  Otherwise the
keyword fallback scan over the lines of the reply. -/
def parseModelReply (content : String) : String × String :=
  if pyContains content "EXPLANATION:" && pyContains content "CYPHER:" then
    let parts := pySplit content "CYPHER:"
    (pyTrim (pyReplace (parts.headD "") "EXPLANATION:" ""),
      pyTrim (parts.getD 1 ""))
  else
    (fallbackExplanation, pyTrim (pyJoin "\n" (fallbackScan (pySplit content "\n"))))


/-! ## Graph executor (`backend_api.py`, `execute_cypher_query`,
lines 167-179)

The Neo4j server is a black box; running a statement inside a session
either fails outright or yields a stream of record fetches, each of
which may itself fail while the cursor is being consumed.  Records are
polymorphic in `α` since the executor never inspects their contents. -/

/-- Outcome of `session.run(cypher)` together with cursor consumption. -/
inductive SessionRun (α : Type) where
  | failed (e : String)
  | stream (recs : List (Except String α))

/-- The loop `for record in result: records.append(dict(record))`: the
first failing fetch raises, discarding the partial local list; otherwise
every record is materialized. -/
def materialize {α : Type} : List (Except String α) → Except String (List α)
  | [] => .ok []
  | .error e :: _ => .error e
  | .ok r :: rest => (materialize rest).map (fun rs => r :: rs)

/-- Trace of one executor call: the returned value or propagated
exception, plus how many sessions were opened and released. -/
structure ExecTrace (α : Type) where
  result : Except String (List α)
  sessionsOpened : Nat
  sessionsReleased : Nat

/-- Embedding of `execute_cypher_query`: one session is opened inside a
`with` block wrapped in `try/finally`, the cursor is fully materialized,
and the session and driver are released on both the normal and the
exceptional exit path. -/
def execute_cypher_query {α : Type} (run : String → SessionRun α)
    (cypher : String) : ExecTrace α :=
  match run cypher with
  | .failed e => { result := .error e, sessionsOpened := 1, sessionsReleased := 1 }
  | .stream recs => { result := materialize recs, sessionsOpened := 1, sessionsReleased := 1 }

/-! ## Raw query endpoint (`backend_api.py`, `run_cypher`,
lines 322-335) -/

/-- Body of the JSON response of `/api/query/cypher` on success. -/
structure RawQueryResponse (α : Type) where
  success : Bool
  results : List α
  count : Nat

/-- Trace of one call of the raw query endpoint: the HTTP-level outcome
(`Except` carries the 500 detail string) and how many times the executor
was invoked. -/
structure RawQueryTrace (α : Type) where
  response : Except String (RawQueryResponse α)
  executorCalls : Nat

/-- Embedding of the `run_cypher` endpoint: the request body goes
straight to `execute_cypher_query`; an executor exception becomes a 500
detail `"Cypher execution failed: ..."`.  No validation of any kind is
performed on the query text. -/
def run_cypher {α : Type} (run : String → SessionRun α)
    (cypher : String) : RawQueryTrace α :=
  match (execute_cypher_query run cypher).result with
  | .ok rs =>
    { response := .ok { success := true, results := rs, count := rs.length },
      executorCalls := 1 }
  | .error e =>
    { response := .error ("Cypher execution failed: " ++ e), executorCalls := 1 }

/-! ## ReadOnly validation (specification section 4.4)

No function of the repository performs this check; the definitions below
follow the words of the specification only, to be compared with the
code. -/

/-- Identifier-like characters: a whole word is a maximal run of these. -/
def isWordChar (c : Char) : Bool :=
  c.isAlphanum || c = '_'

/-- Maximal runs of word characters of a character list. -/
def wordsAux : List Char → List Char → List String
  | [], acc => if acc.isEmpty then [] else [String.mk acc.reverse]
  | c :: cs, acc =>
    if isWordChar c then wordsAux cs (c :: acc)
    else if acc.isEmpty then wordsAux cs []
    else String.mk acc.reverse :: wordsAux cs []

/-- The whole words of a string. -/
def pyWords (s : String) : List String :=
  wordsAux s.data []

/-- The mutating-verb token list of the specification. -/
def mutatingVerbs : List String :=
  ["create", "merge", "delete", "remove", "set", "drop", "detach"]

/-- Follows the words of the specification, not the code: `ReadOnly`
validation allows a query exactly when no whole, case-insensitive word
of it is a mutating verb. -/
def specReadOnlyAllows (query : String) : Bool :=
  !(pyWords (pyLower query)).any (fun w => mutatingVerbs.contains w)


/-! ## Backend summarizer (`backend_api.py`, `generate_summary`,
lines 182-211)

The OpenAI chat call is a black box taken as an argument: `.ok content`
is a successful completion, `.error e` any exception raised by the
client (including a missing credential, which the OpenAI client reports
as an exception).  The second component counts model calls. -/

/-- The fixed empty-result message of `generate_summary`. -/
def backendNoResultsMsg : String :=
  "No results found for your query."

/-- Embedding of `generate_summary`: empty results short-circuit before
the try block; otherwise the model reply is stripped, and any exception
is caught and embedded into the returned string. -/
def generate_summary {α : Type} (model : Except String String)
    (_question : String) (results : List α) (_cypher : String) : String × Nat :=
  if results.isEmpty then (backendNoResultsMsg, 0)
  else
    match model with
    | .ok content => (pyTrim content, 1)
    | .error e => ("Summary generation failed: " ++ e, 1)

/-! ## Front-end summarizer (`app.py`, `summarize_results`,
lines 17-68)

The HTTP call to the chat endpoint either raises or returns a status
code with a body content. -/

/-- Outcome of `requests.post` to the chat completions endpoint. -/
inductive HttpOutcome where
  | response (status : Nat) (content : String)
  | exn (msg : String)

/-- The fixed not-configured message of `summarize_results`. -/
def appNotConfiguredMsg : String :=
  "OpenAI API key not configured. Cannot generate summary."

/-- The fixed empty-result message of `summarize_results`. -/
def appNoResultsMsg : String :=
  "No results found for this query."

/-- Embedding of `summarize_results`: the credential check comes first,
then the empty-result check, and only then the network call; a non-200
status or an exception is embedded into the returned string.  The
second component counts network calls. -/
def summarize_results {α : Type} (apiKey : Option String) (http : HttpOutcome)
    (_question : String) (results : List α) (_cypher : String) : String × Nat :=
  if !pyTruthy apiKey then (appNotConfiguredMsg, 0)
  else if results.isEmpty then (appNoResultsMsg, 0)
  else
    match http with
    | .response status content =>
      if status = 200 then (pyTrim content, 1)
      else ("Error generating summary: " ++ toString status, 1)
    | .exn e => ("Error generating summary: " ++ e, 1)

/-! ## Question endpoint (`backend_api.py`, `ask_question`,
lines 287-319) -/

/-- Response body of `/api/ask` (the timestamp is taken as an
argument since `datetime.now()` is ambient). -/
structure QueryResponse (α : Type) where
  explanation : String
  cypher_query : String
  sql_query : Option String
  results : List α
  summary : Option String
  timestamp : String

/-- Embedding of `ask_question`: synthesis produces
`(explanation, cypher)`; an empty query raises a 400, an executor
exception a 500, and otherwise the SQL translation and the summary are
attached and the full response is returned (the SQL translator, like the
summarizer, catches its own exceptions and returns a string, taken as an
argument here). -/
def ask_question {α : Type} (gen : String × String) (run : String → SessionRun α)
    (sqlText : String) (summaryModel : Except String String)
    (question timestamp : String) : Except String (QueryResponse α) :=
  let explanation := gen.1
  let cypher := gen.2
  if cypher.isEmpty then .error "Failed to generate Cypher query"
  else
    match (execute_cypher_query run cypher).result with
    | .error e => .error ("Query execution failed: " ++ e)
    | .ok results =>
      .ok { explanation := explanation, cypher_query := cypher,
            sql_query := some sqlText, results := results,
            summary := some (generate_summary summaryModel question results cypher).1,
            timestamp := timestamp }

/-! ## Agent pipeline (`src/agent.py`, `generate_lineage_response`,
lines 38-102) -/

/-- Outcome of the OpenAI HTTP request made by the agent:
a non-200 status, an exception anywhere inside the request try block, or
a parsed JSON body.  On a parsed body, `content` is the message content
when the expected shape is present, and `repr` stands for `str(resp)`,
used when extracting the content raises. -/
inductive ModelReply where
  | httpError (status : Nat) (body : String)
  | exn (msg : String)
  | success (content : Option String) (repr : String)

/-- Result of one agent run: the returned pair plus effect counters for
model calls and graph-store sessions. -/
structure AgentResult where
  explanation : String
  cypher : String
  modelCalls : Nat
  sessionsOpened : Nat

/-- The query text the agent extracts from a successful reply:
`resp["choices"][0]["message"]["content"].strip()`, or `str(resp)` when
that extraction raises. -/
def agentQueryText : Option String → String → String
  | some c, _ => pyTrim c
  | none, r => r

/-- Embedding of `generate_lineage_response`: the credential truthiness
check precedes every effect; a failed request returns the failure text
with an empty query; otherwise the extracted query is executed in one
session and either the success explanation or the execution error is
returned together with the query text.  The rendering of
`records[:3]` by `str` is a black box argument. -/
def generate_lineage_response {α : Type} (apiKey : Option String)
    (reply : ModelReply) (exec : String → Except String (List α))
    (render : List α → String) : AgentResult :=
  if !pyTruthy apiKey then
    { explanation := "OPENAI_API_KEY not set in environment. Cannot generate Cypher via LLM.",
      cypher := "", modelCalls := 0, sessionsOpened := 0 }
  else
    match reply with
    | .httpError status body =>
      { explanation := "OpenAI request failed: " ++ toString status ++ " " ++ body,
        cypher := "", modelCalls := 1, sessionsOpened := 0 }
    | .exn m =>
      { explanation := "OpenAI request failed: " ++ m,
        cypher := "", modelCalls := 1, sessionsOpened := 0 }
    | .success content repr =>
      let gc := agentQueryText content repr
      match exec gc with
      | .ok records =>
        { explanation := "Executed Cypher; returned " ++ toString records.length
            ++ " record(s). Sample: " ++ render (records.take 3),
          cypher := gc, modelCalls := 1, sessionsOpened := 1 }
      | .error e =>
        { explanation := "Error executing Cypher on Neo4j: " ++ e,
          cypher := gc, modelCalls := 1, sessionsOpened := 1 }

/-! ## Backend synthesis (`backend_api.py`,
`generate_cypher_from_question`, lines 85-164)

The function opens a session for the schema introspection query before
the model is ever consulted, and performs no credential check of its
own (the module-level OpenAI client is constructed from whatever key is
in the environment). -/

/-- Trace of one call of `generate_cypher_from_question`: the parsed
pair or the propagated exception, plus effect counters. -/
structure BackendGenTrace where
  result : Except String (String × String)
  modelCalls : Nat
  sessionsOpened : Nat

/-- Embedding of `generate_cypher_from_question`: first the schema
session (always opened), then the model call, then the parse; either
external failure propagates as an exception, with the driver closed in
the `finally` block. -/
def generate_cypher_from_question {α : Type} (schemaRun : Except String (List α))
    (modelCall : Except String String) : BackendGenTrace :=
  match schemaRun with
  | .error e => { result := .error e, modelCalls := 0, sessionsOpened := 1 }
  | .ok _ =>
    match modelCall with
    | .error e => { result := .error e, modelCalls := 1, sessionsOpened := 1 }
    | .ok content =>
      { result := .ok (parseModelReply content), modelCalls := 1, sessionsOpened := 1 }

/-! ## Lineage traversal (`backend_api.py`, `get_lineage`,
lines 400-458)

The endpoint declares `depth: int = Query(default=2, ge=1, le=5)`;
FastAPI rejects a request whose depth is outside `[1, 5]` with a
validation error before the handler body runs, so no traversal query is
issued for such a request. -/

/-- Node of the lineage response. -/
structure LineageNode where
  id : String
  label : String
  type : String

/-- Edge of the lineage response. -/
structure LineageEdge where
  source : String
  target : String
  type : String

/-- Body of the lineage response. -/
structure LineageResponse where
  nodes : List LineageNode
  edges : List LineageEdge

/-- One record of the union traversal query: the related table name and
the `(start_node.name, end_node.name)` pairs of `relationships(path)`. -/
structure LineageRecord where
  related : String
  rels : List (String × String)

/-- Insertion of the Python dict update
`if related_name not in nodes: nodes[related_name] = ...`, keeping the
first-insertion order of `nodes.values()`. -/
def addNode (ns : List LineageNode) (n : LineageNode) : List LineageNode :=
  if ns.any (fun m => m.id = n.id) then ns else ns ++ [n]

/-- The edge record appended for one relationship of one returned
path. -/
def lineageEdgeOf (p : String × String) : LineageEdge :=
  { source := p.1, target := p.2, type := "LOADS_INTO" }

/-- The center node pre-seeded into the node map. -/
def centerNode (tableName : String) : LineageNode :=
  { id := tableName, label := tableName, type := "center" }

/-- The merge loop of `get_lineage` over the traversal records, started
from a node map pre-seeded with the center node and an empty edge
list. -/
def lineageMergeFrom (ns : List LineageNode) (es : List LineageEdge) :
    List LineageRecord → List LineageNode × List LineageEdge
  | [] => (ns, es)
  | r :: rest =>
    lineageMergeFrom
      (addNode ns { id := r.related, label := r.related, type := "related" })
      (es ++ r.rels.map lineageEdgeOf)
      rest

/-- The full merge of `get_lineage`: the center node is inserted before
any traversal record is processed. -/
def lineageMerge (tableName : String) (records : List LineageRecord) : LineageResponse :=
  let merged := lineageMergeFrom [centerNode tableName] [] records
  { nodes := merged.1, edges := merged.2 }

/-- Outcome of one lineage request. -/
inductive LineageOutcome where
  | validationError
  | ok (resp : LineageResponse)

/-- Embedding of the `get_lineage` endpoint including the FastAPI
parameter validation: a depth outside `[1, 5]` is rejected with no
traversal query issued; otherwise the union query runs once and its
records are merged.  The second component counts traversal queries. -/
def get_lineage (runQuery : Int → List LineageRecord)
    (tableName : String) (depth : Int) : LineageOutcome × Nat :=
  if depth < 1 || 5 < depth then (.validationError, 0)
  else (.ok (lineageMerge tableName (runQuery depth)), 1)

/-! ## Administrative ingestion (`src/neo4j_setup.py`,
`Neo4jSetup.ingest_json_files`, lines 165-258) -/

/-- Label derivation from a JSON file base name:
`raw_label = name.capitalize()` then drop a trailing `'s'`. -/
def deriveLabel (name : String) : String :=
  let rawLabel := pyCapitalize name
  if rawLabel.data.getLast? = some 's' then String.mk rawLabel.data.dropLast
  else rawLabel

/-- The node-creation query text of `ingest_json_files`, built by
f-string interpolation of the derived label and the id key into the
query; no check of any kind is applied to either identifier. -/
def ingestNodeCypher (label : String) (idKey : Option String) : String :=
  match idKey with
  | some k =>
    "UNWIND $rows AS row MERGE (n:" ++ label ++ " \x7b " ++ k ++ ": row." ++ k
      ++ " \x7d) SET n += row"
  | none => "UNWIND $rows AS row CREATE (n:" ++ label ++ ") SET n += row"

/-- The query text `ingest_json_files` issues for a file with the given
base name: the label is derived from the file name and interpolated
directly. -/
def ingestCypherForFile (baseName : String) (idKey : Option String) : String :=
  ingestNodeCypher (deriveLabel baseName) idKey

/-- Follows the words of the specification, not the code: the
allow-list pattern for dynamic identifiers, letters, digits and
underscore only (and nonempty). -/
def specIdentifierAllowed (s : String) : Bool :=
  !s.isEmpty && s.data.all isWordChar


/-! ## Helper lemmas -/

/-- The empty pattern is found at the front of every text. -/
theorem breakOnSub_nil_isSome (l : List Char) :
    (breakOnSub [] l).isSome = true := by
  cases l <;> simp [breakOnSub, List.isPrefixOf]

/-- A pattern standing between two contexts is always found by the
left-to-right scan. -/
theorem breakOnSub_isSome_of_append (x sub y : List Char) :
    (breakOnSub sub (x ++ sub ++ y)).isSome = true := by
  induction x with
  | nil =>
    cases sub with
    | nil => simpa using breakOnSub_nil_isSome y
    | cons c cs =>
      have hpre : (c :: cs).isPrefixOf (c :: (cs ++ y)) = true := by
        rw [List.isPrefixOf_iff_prefix]
        exact ⟨y, by simp⟩
      simp [breakOnSub, hpre]
  | cons c cs ih =>
    have harr : (c :: cs) ++ sub ++ y = c :: (cs ++ sub ++ y) := by simp
    rw [harr]
    by_cases hpre : sub.isPrefixOf (c :: (cs ++ sub ++ y)) = true
    · simp only [breakOnSub]
      rw [hpre]
      simp
    · simp only [Bool.not_eq_true] at hpre
      simp only [breakOnSub]
      rw [hpre]
      simp only [Bool.false_eq_true, if_false]
      rcases hsome : breakOnSub sub (cs ++ sub ++ y) with _ | pq
      · rw [hsome] at ih; simp at ih
      · simp

/-- Substring containment through explicit decomposition. -/
theorem pyContains_of_eq_append (s pre mid post : String)
    (h : s.data = pre.data ++ mid.data ++ post.data) :
    pyContains s mid = true := by
  unfold pyContains
  rw [h]
  exact breakOnSub_isSome_of_append pre.data mid.data post.data

/-! ## C1: ReadOnly validation of the raw query endpoint -/

/-- The claim of C1 is false on the code: the raw-query endpoint
performs no validation at all.  On the input `"DELETE n"` the
specification validator rejects (the premise of the claim is live), yet
the endpoint invokes the executor and reports `success = true` when the
executor succeeds, instead of a rejection with `success = false`. -/
theorem c1_counterexample :
    specReadOnlyAllows "DELETE n" = false ∧
    (run_cypher (fun _ => SessionRun.stream ([] : List (Except String Nat)))
        "DELETE n").executorCalls = 1 ∧
    (run_cypher (fun _ => SessionRun.stream ([] : List (Except String Nat)))
        "DELETE n").response =
      .ok { success := true, results := [], count := 0 } := by
  refine ⟨by decide, rfl, rfl⟩

/-- Amended C1: the raw-query endpoint applies no `ReadOnly` validation;
every query string, mutating verbs included, is handed to the executor
exactly once, and the endpoint reports `success = true` whenever the
executor succeeds and a 500 wrapping the cause whenever it fails. -/
theorem c1_raw_query_executes_everything {α : Type}
    (run : String → SessionRun α) (cypher : String) :
    (run_cypher run cypher).executorCalls = 1 ∧
    (∀ rs, (execute_cypher_query run cypher).result = .ok rs →
      (run_cypher run cypher).response =
        .ok { success := true, results := rs, count := rs.length }) ∧
    (∀ e, (execute_cypher_query run cypher).result = .error e →
      (run_cypher run cypher).response = .error ("Cypher execution failed: " ++ e)) := by
  rcases h : (execute_cypher_query run cypher).result with e | rs
  · refine ⟨by simp [run_cypher, h], ?_, ?_⟩
    · intro rs hrs; cases hrs
    · intro e' he; cases he; simp [run_cypher, h]
  · refine ⟨by simp [run_cypher, h], ?_, ?_⟩
    · intro rs' hrs; cases hrs; simp [run_cypher, h]
    · intro e' he; cases he

/-- Witness for C1 at the concrete input `"DELETE n"` with an executor
returning no rows. -/
theorem c1_raw_query_executes_everything_witness :
    (run_cypher (fun _ => SessionRun.stream ([] : List (Except String Nat)))
        "DELETE n").executorCalls = 1 ∧
    (run_cypher (fun _ => SessionRun.stream ([] : List (Except String Nat)))
        "DELETE n").response =
      .ok { success := true, results := [], count := 0 } := by
  have h := c1_raw_query_executes_everything
    (fun _ => SessionRun.stream ([] : List (Except String Nat))) "DELETE n"
  exact ⟨h.1, h.2.1 [] rfl⟩

/-! ## C2: allow-list check of interpolated identifiers -/

/-- The claim of C2 is false on the code: the label derived from the
file base name `my-table` fails the allow-list pattern of the
specification, yet `ingest_json_files` concatenates it into the node
creation query unchanged. -/
theorem c2_counterexample :
    specIdentifierAllowed (deriveLabel "my-table") = false ∧
    ingestCypherForFile "my-table" none =
      "UNWIND $rows AS row CREATE (n:My-table) SET n += row" := by
  refine ⟨by decide, rfl⟩

/-- Amended C2: no allow-list check is performed; the label derived
from a file base name is interpolated into the ingestion query text even
when it fails the letters-digits-underscore pattern of the
specification. -/
theorem c2_label_interpolated_unchecked (baseName : String) (idKey : Option String)
    (_h : specIdentifierAllowed (deriveLabel baseName) = false) :
    pyContains (ingestCypherForFile baseName idKey) (deriveLabel baseName) = true := by
  unfold ingestCypherForFile ingestNodeCypher
  rcases idKey with _ | k
  · exact pyContains_of_eq_append _ "UNWIND $rows AS row CREATE (n:" _
      ") SET n += row" (by simp [String.data_append])
  · exact pyContains_of_eq_append _ "UNWIND $rows AS row MERGE (n:" _
      (" \x7b " ++ k ++ ": row." ++ k ++ " \x7d) SET n += row")
      (by simp [String.data_append])

/-- Witness for C2 at the concrete file base name `my-table`. -/
theorem c2_label_interpolated_unchecked_witness :
    pyContains (ingestCypherForFile "my-table" none) (deriveLabel "my-table") = true :=
  c2_label_interpolated_unchecked "my-table" none (by decide)

/-! ## C3: credential fast path of the question-answering pipeline -/

/-- The claim of C3 is false on the backend path: with no usable model
credential (the OpenAI call fails), `generate_cypher_from_question`
still opens a graph-store session for the schema introspection query
and propagates an exception instead of returning a fixed
not-configured outcome. -/
theorem c3_counterexample :
    (generate_cypher_from_question ((.ok []) : Except String (List Nat))
        (.error "The api_key client option must be set")).sessionsOpened = 1 ∧
    (generate_cypher_from_question ((.ok []) : Except String (List Nat))
        (.error "The api_key client option must be set")).result =
      .error "The api_key client option must be set" :=
  ⟨rfl, rfl⟩

/-- Amended C3: on the agent pipeline, a missing or empty credential
short-circuits before every effect: the fixed not-configured
explanation is returned with an empty query, no model call is made and
no graph-store session is opened. -/
theorem c3_agent_credential_fast_path {α : Type} (apiKey : Option String)
    (reply : ModelReply) (exec : String → Except String (List α))
    (render : List α → String) (h : pyTruthy apiKey = false) :
    generate_lineage_response apiKey reply exec render =
      { explanation := "OPENAI_API_KEY not set in environment. Cannot generate Cypher via LLM.",
        cypher := "", modelCalls := 0, sessionsOpened := 0 } := by
  unfold generate_lineage_response
  rw [h]
  rfl

/-- Witness for C3 at an unset credential and concrete collaborators. -/
theorem c3_agent_credential_fast_path_witness :
    generate_lineage_response none (ModelReply.exn "unreachable")
        (fun _ => Except.ok ([] : List Nat)) (fun _ => "[]") =
      { explanation := "OPENAI_API_KEY not set in environment. Cannot generate Cypher via LLM.",
        cypher := "", modelCalls := 0, sessionsOpened := 0 } :=
  c3_agent_credential_fast_path none (ModelReply.exn "unreachable")
    (fun _ => Except.ok ([] : List Nat)) (fun _ => "[]") rfl

/-! ## C4: parsing of the model reply -/

/-- Once the scan is on, every remaining line is accumulated. -/
theorem fallbackScanFrom_true (lines : List String) :
    fallbackScanFrom true lines = lines := by
  induction lines with
  | nil => rfl
  | cons l rest ih => simp [fallbackScanFrom, ih]

/-- When no line triggers the scan, nothing is accumulated. -/
theorem fallbackScan_of_no_trigger (lines : List String)
    (h : ∀ l ∈ lines, lineTriggers l = false) : fallbackScan lines = [] := by
  unfold fallbackScan
  induction lines with
  | nil => rfl
  | cons l rest ih =>
    have hl : lineTriggers l = false := h l (by simp)
    simp only [fallbackScanFrom, hl, Bool.false_or, Bool.or_false]
    simpa using ih (fun x hx => h x (by simp [hx]))

/-- The scan output starts at the first triggering line and keeps every
later line. -/
theorem fallbackScan_first_trigger (pre : List String) (l : String)
    (rest : List String) (hpre : ∀ x ∈ pre, lineTriggers x = false)
    (hl : lineTriggers l = true) :
    fallbackScan (pre ++ l :: rest) = l :: rest := by
  unfold fallbackScan
  induction pre with
  | nil =>
    simp only [List.nil_append, fallbackScanFrom, hl, Bool.or_true, if_true]
    rw [fallbackScanFrom_true]
  | cons p ps ih =>
    have hp : lineTriggers p = false := hpre p (by simp)
    simp only [List.cons_append, fallbackScanFrom, hp, Bool.false_or, Bool.or_false]
    simpa using ih (fun x hx => hpre x (by simp [hx]))

/-- A split with at least two parts means the separator occurs. -/
theorem pyContains_of_pySplit_cons₂ (s sep p0 p1 : String) (rest : List String)
    (h : pySplit s sep = p0 :: p1 :: rest) : pyContains s sep = true := by
  unfold pyContains
  rcases hb : breakOnSub sep.data s.data with _ | pq
  · exfalso
    unfold pySplit splitOnL at h
    simp only [splitOnFuel, hb] at h
    simp at h
  · simp

/-- Amended C4, in three parts.  Primary path: when the reply splits on
the query marker into at least two parts and contains the explanation
marker, the explanation is part 0 with every explanation marker removed
and stripped, and the query is part 1 stripped — the segment between
the first and second marker occurrence, not everything after the first.
Fallback: when the markers are not both present, the query is the tail
of the line list from the first line whose stripped upper-cased text
starts with a fallback keyword (a prefix test, not a whole-token test),
joined and stripped; when no line passes the prefix test the query is
empty and the explanation is the fixed generic message. -/
theorem c4_parse_characterization (content p0 p1 l : String)
    (rest pre tail : List String) :
    (pySplit content "CYPHER:" = p0 :: p1 :: rest →
      pyContains content "EXPLANATION:" = true →
      parseModelReply content = (pyTrim (pyReplace p0 "EXPLANATION:" ""), pyTrim p1)) ∧
    ((pyContains content "EXPLANATION:" && pyContains content "CYPHER:") = false →
      pySplit content "\n" = pre ++ l :: tail →
      (∀ x ∈ pre, lineTriggers x = false) → lineTriggers l = true →
      parseModelReply content = (fallbackExplanation, pyTrim (pyJoin "\n" (l :: tail)))) ∧
    ((pyContains content "EXPLANATION:" && pyContains content "CYPHER:") = false →
      (∀ x ∈ pySplit content "\n", lineTriggers x = false) →
      parseModelReply content = (fallbackExplanation, "")) := by
  refine ⟨?_, ?_, ?_⟩
  · intro hsplit hexp
    have hcy := pyContains_of_pySplit_cons₂ content "CYPHER:" p0 p1 rest hsplit
    unfold parseModelReply
    rw [hexp, hcy]
    simp only [Bool.and_self, if_true]
    rw [hsplit]
    rfl
  · intro hmark hlines hpre hl
    unfold parseModelReply
    rw [hmark]
    simp only [Bool.false_eq_true, if_false]
    rw [hlines, fallbackScan_first_trigger pre l tail hpre hl]
  · intro hmark htrig
    unfold parseModelReply
    rw [hmark]
    simp only [Bool.false_eq_true, if_false]
    rw [fallbackScan_of_no_trigger _ htrig]
    rfl

/-- Witness for C4 at three concrete replies, one per part. -/
theorem c4_parse_characterization_witness :
    parseModelReply "EXPLANATION: a CYPHER: b" = ("a", "b") ∧
    parseModelReply "intro\nMATCH (n)\nRETURN n" =
      (fallbackExplanation, "MATCH (n)\nRETURN n") ∧
    parseModelReply "nothing" = (fallbackExplanation, "") := by
  refine ⟨?_, ?_, ?_⟩
  · exact (c4_parse_characterization "EXPLANATION: a CYPHER: b"
      "EXPLANATION: a " " b" "" [] [] []).1 rfl rfl
  · exact (c4_parse_characterization "intro\nMATCH (n)\nRETURN n"
      "" "" "MATCH (n)" [] ["intro"] ["RETURN n"]).2.1 rfl rfl
      (by decide) rfl
  · exact (c4_parse_characterization "nothing" "" "" "" [] [] []).2.2 rfl (by decide)

/-- The claim of C4 is false on the code in two places: with two query
markers the code returns only the segment up to the second marker, not
everything after the first; and the fallback triggers on a keyword
prefix, so a reply whose lines have no read-clause leading token can
still yield a nonempty query. -/
theorem c4_counterexample :
    (parseModelReply "EXPLANATION: a CYPHER: b CYPHER: c").2 ≠ "b CYPHER: c" ∧
    (parseModelReply "MATCHBOX sales").2 ≠ "" := by
  exact ⟨by decide, by decide⟩

/-! ## C5 and C6: lineage traversal -/

/-- Insertion never removes a node already present. -/
theorem mem_addNode (ns : List LineageNode) (m n : LineageNode) (h : n ∈ ns) :
    n ∈ addNode ns m := by
  unfold addNode
  by_cases hany : ns.any (fun x => x.id = m.id) = true
  · simpa [hany]
  · simp only [Bool.not_eq_true] at hany
    rw [hany]
    simp [h]

/-- The merge loop never removes a node already present. -/
theorem mem_lineageMergeFrom (records : List LineageRecord) :
    ∀ (ns : List LineageNode) (es : List LineageEdge) (n : LineageNode),
      n ∈ ns → n ∈ (lineageMergeFrom ns es records).1 := by
  induction records with
  | nil => intro ns es n h; simpa [lineageMergeFrom] using h
  | cons r rest ih =>
    intro ns es n h
    exact ih _ _ n (mem_addNode ns _ n h)

/-- C5: a lineage request with depth outside the interval is rejected
with no traversal query issued, and every accepted request returns a
response containing the center node, whatever the traversal records
are — in particular when there are none. -/
theorem c5_lineage_depth_and_center (runQuery : Int → List LineageRecord)
    (tableName : String) (depth : Int) :
    ((depth < 1 ∨ 5 < depth) →
      get_lineage runQuery tableName depth = (.validationError, 0)) ∧
    (1 ≤ depth → depth ≤ 5 →
      ∃ resp, get_lineage runQuery tableName depth = (.ok resp, 1) ∧
        centerNode tableName ∈ resp.nodes) := by
  constructor
  · intro h
    rcases h with h | h <;> simp [get_lineage, h]
  · intro h1 h2
    have hc1 : ¬(depth < 1) := by omega
    have hc2 : ¬(5 < depth) := by omega
    refine ⟨lineageMerge tableName (runQuery depth), ?_, ?_⟩
    · simp [get_lineage, hc1, hc2]
    · exact mem_lineageMergeFrom (runQuery depth) _ [] (centerNode tableName) (by simp)

/-- Witness for C5: depth 7 is rejected without a query, and depth 2
with an empty traversal still contains the center node. -/
theorem c5_lineage_depth_and_center_witness :
    get_lineage (fun _ => []) "DEPOSIT_SUMMARY" 7 = (.validationError, 0) ∧
    ∃ resp, get_lineage (fun _ => []) "DEPOSIT_SUMMARY" 2 = (.ok resp, 1) ∧
      centerNode "DEPOSIT_SUMMARY" ∈ resp.nodes :=
  ⟨(c5_lineage_depth_and_center (fun _ => []) "DEPOSIT_SUMMARY" 7).1 (by omega),
    (c5_lineage_depth_and_center (fun _ => []) "DEPOSIT_SUMMARY" 2).2
      (by omega) (by omega)⟩

/-- Insertion preserves the uniqueness of node ids. -/
theorem addNode_nodup (ns : List LineageNode) (n : LineageNode)
    (h : (ns.map (fun m => m.id)).Nodup) :
    ((addNode ns n).map (fun m => m.id)).Nodup := by
  unfold addNode
  by_cases hany : ns.any (fun x => x.id = n.id) = true
  · simpa [hany]
  · simp only [Bool.not_eq_true] at hany
    rw [hany]
    simp only [Bool.false_eq_true, if_false, List.map_append, List.map_cons,
      List.map_nil]
    rw [List.nodup_append]
    refine ⟨h, List.nodup_singleton _, ?_⟩
    intro a ha hb
    simp only [List.mem_singleton] at hb
    subst hb
    simp only [List.mem_map] at ha
    obtain ⟨m, hm, hid⟩ := ha
    have : ns.any (fun x => x.id = n.id) = true := by
      rw [List.any_eq_true]
      exact ⟨m, hm, by simp [hid]⟩
    rw [hany] at this
    cases this

/-- The merge loop preserves the uniqueness of node ids. -/
theorem lineageMergeFrom_nodup (records : List LineageRecord) :
    ∀ (ns : List LineageNode) (es : List LineageEdge),
      (ns.map (fun m => m.id)).Nodup →
      ((lineageMergeFrom ns es records).1.map (fun m => m.id)).Nodup := by
  induction records with
  | nil => intro ns es h; simpa [lineageMergeFrom] using h
  | cons r rest ih =>
    intro ns es h
    exact ih _ _ (addNode_nodup ns _ h)

/-- The merge loop appends the edges of every record, dropping none. -/
theorem lineageMergeFrom_edges (records : List LineageRecord) :
    ∀ (ns : List LineageNode) (es : List LineageEdge),
      (lineageMergeFrom ns es records).2 =
        es ++ (records.map (fun r => r.rels.map lineageEdgeOf)).flatten := by
  induction records with
  | nil => intro ns es; simp [lineageMergeFrom]
  | cons r rest ih =>
    intro ns es
    simp only [lineageMergeFrom, ih, List.map_cons, List.flatten_cons, List.append_assoc]

/-- C6: the nodes of a lineage response are unique by id, while the
edges are exactly the concatenation of every relationship of every
returned record — duplicate `(source, target)` pairs from distinct
paths all remain. -/
theorem c6_nodes_dedup_edges_preserved (tableName : String)
    (records : List LineageRecord) :
    ((lineageMerge tableName records).nodes.map (fun n => n.id)).Nodup ∧
    (lineageMerge tableName records).edges =
      (records.map (fun r => r.rels.map lineageEdgeOf)).flatten := by
  constructor
  · exact lineageMergeFrom_nodup records _ [] (by simp)
  · have h := lineageMergeFrom_edges records [centerNode tableName] []
    simpa [lineageMerge] using h

/-! ## C7: summarizer fast paths -/

/-- The claim of C7 is false on the code of `summarize_results`: on an
empty result list with no credential configured, the credential check
comes first, so the fixed not-configured message is returned rather
than the fixed no-results message. -/
theorem c7_counterexample :
    summarize_results none (HttpOutcome.exn "x") "q" ([] : List Nat) "c" =
      (appNotConfiguredMsg, 0) ∧
    appNotConfiguredMsg ≠ appNoResultsMsg :=
  ⟨rfl, by decide⟩

/-- Amended C7: `summarize_results` returns the fixed not-configured
message without a network call whenever the credential is absent or
empty (whatever the results are, empty included), and the fixed
no-results message without a network call when the credential is
present and the results are empty; `generate_summary` has no credential
check and returns its fixed no-results message without a network call
whenever the results are empty. -/
theorem c7_summarizer_fast_paths {α : Type} (apiKey : Option String)
    (http : HttpOutcome) (model : Except String String) (q c : String)
    (rows : List α) :
    (pyTruthy apiKey = false →
      summarize_results apiKey http q rows c = (appNotConfiguredMsg, 0)) ∧
    (pyTruthy apiKey = true →
      summarize_results apiKey http q ([] : List α) c = (appNoResultsMsg, 0)) ∧
    generate_summary model q ([] : List α) c = (backendNoResultsMsg, 0) := by
  refine ⟨?_, ?_, ?_⟩
  · intro h
    simp [summarize_results, h]
  · intro h
    simp [summarize_results, h]
  · simp [generate_summary]

/-- Witness for C7: a missing credential on an empty result list, and a
present credential on an empty result list. -/
theorem c7_summarizer_fast_paths_witness :
    summarize_results none (HttpOutcome.exn "x") "q" ([] : List Nat) "c" =
      (appNotConfiguredMsg, 0) ∧
    summarize_results (some "k") (HttpOutcome.exn "x") "q" ([] : List Nat) "c" =
      (appNoResultsMsg, 0) :=
  ⟨(c7_summarizer_fast_paths none (HttpOutcome.exn "x")
      (Except.error "x") "q" "c" ([] : List Nat)).1 rfl,
    (c7_summarizer_fast_paths (some "k") (HttpOutcome.exn "x")
      (Except.error "x") "q" "c" ([] : List Nat)).2.1 rfl⟩

/-! ## C8: summarization failure never fails the request -/

/-- C8: on a nonempty result list, a failing model call makes each
summarizer return a message embedding the failure cause instead of
raising, and the question endpoint therefore still returns the raw
results and the query text, with the failure message in the `summary`
field. -/
theorem c8_summary_failure_recovered {α : Type} (q c e key body ts sql expl cy : String)
    (rows : List α) (code : Nat) (run : String → SessionRun α) :
    (rows ≠ [] →
      generate_summary (.error e) q rows c = ("Summary generation failed: " ++ e, 1)) ∧
    (rows ≠ [] → pyTruthy (some key) = true →
      summarize_results (some key) (HttpOutcome.exn e) q rows c =
        ("Error generating summary: " ++ e, 1)) ∧
    (rows ≠ [] → pyTruthy (some key) = true → code ≠ 200 →
      summarize_results (some key) (HttpOutcome.response code body) q rows c =
        ("Error generating summary: " ++ toString code, 1)) ∧
    (cy.isEmpty = false → (execute_cypher_query run cy).result = .ok rows → rows ≠ [] →
      ask_question (expl, cy) run sql (.error e) q ts =
        .ok { explanation := expl, cypher_query := cy, sql_query := some sql,
              results := rows, summary := some ("Summary generation failed: " ++ e),
              timestamp := ts }) := by
  refine ⟨?_, ?_, ?_, ?_⟩
  · intro hrows
    simp [generate_summary, hrows]
  · intro hrows hk
    simp [summarize_results, hk, hrows]
  · intro hrows hk hcode
    simp [summarize_results, hk, hrows, hcode]
  · intro hcy hexec hrows
    simp [ask_question, hcy, hexec, generate_summary, hrows]

/-- Witness for C8 at a concrete nonempty result list and failing
calls. -/
theorem c8_summary_failure_recovered_witness :
    generate_summary (.error "boom") "q" [0] "c" =
      ("Summary generation failed: boom", 1) ∧
    summarize_results (some "k") (HttpOutcome.exn "boom") "q" [0] "c" =
      ("Error generating summary: boom", 1) ∧
    summarize_results (some "k") (HttpOutcome.response 500 "oops") "q" [0] "c" =
      ("Error generating summary: 500", 1) ∧
    ask_question ("ex", "MATCH (n) RETURN n")
        (fun _ => SessionRun.stream [Except.ok 0]) "sql" (.error "boom") "q" "ts" =
      .ok { explanation := "ex", cypher_query := "MATCH (n) RETURN n",
            sql_query := some "sql", results := [0],
            summary := some "Summary generation failed: boom", timestamp := "ts" } := by
  have h := c8_summary_failure_recovered "q" "c" "boom" "k" "oops" "ts"
    "sql" "ex" "MATCH (n) RETURN n" [(0 : Nat)] 500
    (fun _ => SessionRun.stream [Except.ok 0])
  exact ⟨h.1 (by decide), h.2.1 (by decide) rfl,
    h.2.2.1 (by decide) rfl (by decide), h.2.2.2 rfl rfl (by decide)⟩

/-! ## C9: executor session and failure contract -/

/-- A cursor whose fetches all succeed materializes every record. -/
theorem materialize_map_ok {α : Type} (rs : List α) :
    materialize (rs.map Except.ok) = .ok rs := by
  induction rs with
  | nil => rfl
  | cons r rest ih => simp [materialize, ih, Except.map]

/-- A cursor failing after any prefix of successful fetches yields the
error, never the prefix. -/
theorem materialize_error {α : Type} (rs : List α) (e : String)
    (post : List (Except String α)) :
    materialize (rs.map Except.ok ++ .error e :: post) = .error e := by
  induction rs with
  | nil => rfl
  | cons r rest ih => simp [materialize, ih, Except.map]

/-- C9: the executor opens exactly one session and releases exactly one
session on every exit path; a failing statement propagates the cause
with zero records; an all-successful cursor returns every record; and a
cursor failing mid-stream yields the error, never a truncated prefix of
the rows. -/
theorem c9_executor_contract {α : Type} (run : String → SessionRun α)
    (cypher : String) :
    (execute_cypher_query run cypher).sessionsOpened = 1 ∧
    (execute_cypher_query run cypher).sessionsReleased = 1 ∧
    (∀ e, run cypher = .failed e →
      (execute_cypher_query run cypher).result = .error e) ∧
    (∀ (rs : List α), run cypher = .stream (rs.map Except.ok) →
      (execute_cypher_query run cypher).result = .ok rs) ∧
    (∀ (rs : List α) (e : String) (post : List (Except String α)),
      run cypher = .stream (rs.map Except.ok ++ .error e :: post) →
      (execute_cypher_query run cypher).result = .error e) := by
  refine ⟨?_, ?_, ?_, ?_, ?_⟩
  · rcases h : run cypher <;> simp [execute_cypher_query, h]
  · rcases h : run cypher <;> simp [execute_cypher_query, h]
  · intro e h
    simp [execute_cypher_query, h]
  · intro rs h
    simp [execute_cypher_query, h, materialize_map_ok]
  · intro rs e post h
    simp [execute_cypher_query, h, materialize_error]

/-- Witness for C9: a one-row successful stream, a failed statement,
and a stream failing after one successful fetch. -/
theorem c9_executor_contract_witness :
    (execute_cypher_query (fun _ => SessionRun.stream [Except.ok (0 : Nat)])
        "q").sessionsOpened = 1 ∧
    (execute_cypher_query (fun _ => SessionRun.stream [Except.ok (0 : Nat)])
        "q").result = .ok [0] ∧
    (execute_cypher_query
        (fun _ => (SessionRun.failed "syntax error" : SessionRun Nat)) "q").result =
      .error "syntax error" ∧
    (execute_cypher_query
        (fun _ => SessionRun.stream [Except.ok (0 : Nat), Except.error "timeout"])
        "q").result = .error "timeout" := by
  refine ⟨(c9_executor_contract (fun _ => SessionRun.stream [Except.ok (0 : Nat)]) "q").1,
    (c9_executor_contract (fun _ => SessionRun.stream [Except.ok (0 : Nat)])
      "q").2.2.2.1 [0] rfl,
    (c9_executor_contract
      (fun _ => (SessionRun.failed "syntax error" : SessionRun Nat)) "q").2.2.1
      "syntax error" rfl,
    (c9_executor_contract
      (fun _ => SessionRun.stream [Except.ok (0 : Nat), Except.error "timeout"])
      "q").2.2.2.2 [0] "timeout" [] rfl⟩

/-! ## C10: totality and the empty-query characterization of the agent -/

/-- The claim of C10 is false on the code: a model reply whose content
strips to the empty string reaches the execution stage (one session is
opened, the executor runs and succeeds), yet the returned query
component is the empty string, so emptiness of the query does not
coincide with failure before execution. -/
theorem c10_counterexample :
    (generate_lineage_response (some "k") (ModelReply.success (some " ") "x")
        (fun _ => Except.ok ([] : List Nat)) (fun _ => "[]")).cypher = "" ∧
    (generate_lineage_response (some "k") (ModelReply.success (some " ") "x")
        (fun _ => Except.ok ([] : List Nat)) (fun _ => "[]")).sessionsOpened = 1 ∧
    (generate_lineage_response (some "k") (ModelReply.success (some " ") "x")
        (fun _ => Except.ok ([] : List Nat)) (fun _ => "[]")).explanation =
      "Executed Cypher; returned 0 record(s). Sample: []" :=
  ⟨rfl, rfl, by decide⟩

/-- Amended C10: the agent always returns a pair of strings (it is a
total function); the query component is empty exactly when the failure
happened before execution (missing credential, non-200 status, request
exception) or the text extracted from the reply is itself empty; and
when execution fails, the extracted query text is still returned
together with an explanation embedding the cause. -/
theorem c10_agent_characterization {α : Type} (apiKey : Option String)
    (reply : ModelReply) (exec : String → Except String (List α))
    (render : List α → String) :
    ((generate_lineage_response apiKey reply exec render).cypher = "" ↔
      pyTruthy apiKey = false ∨
      (∃ s b, reply = .httpError s b) ∨ (∃ m, reply = .exn m) ∨
      (∃ c r, reply = .success c r ∧ agentQueryText c r = "")) ∧
    (∀ c r e, pyTruthy apiKey = true → reply = .success c r →
      exec (agentQueryText c r) = .error e →
      generate_lineage_response apiKey reply exec render =
        { explanation := "Error executing Cypher on Neo4j: " ++ e,
          cypher := agentQueryText c r, modelCalls := 1, sessionsOpened := 1 }) := by
  constructor
  · by_cases hk : pyTruthy apiKey = false
    · simp [generate_lineage_response, hk]
    · simp only [Bool.not_eq_false] at hk
      rcases reply with ⟨s, b⟩ | m | ⟨c, r⟩
      · simp [generate_lineage_response, hk]
      · simp [generate_lineage_response, hk]
      · have hcy : (generate_lineage_response apiKey (ModelReply.success c r)
            exec render).cypher = agentQueryText c r := by
          rcases hexec : exec (agentQueryText c r) with e | rs <;>
            simp [generate_lineage_response, hk, hexec]
        rw [hcy]
        constructor
        · intro h
          exact Or.inr (Or.inr (Or.inr ⟨c, r, rfl, h⟩))
        · rintro (h | ⟨s, b, h⟩ | ⟨m, h⟩ | ⟨c2, r2, heq, h⟩)
          · rw [h] at hk; exact Bool.noConfusion hk
          · cases h
          · cases h
          · cases heq; exact h
  · intro c r e hk hreply hexec
    subst hreply
    simp [generate_lineage_response, hk, hexec]

/-- Witness for C10: a request exception gives an empty query, and a
failing execution returns the extracted query with the error cause. -/
theorem c10_agent_characterization_witness :
    (generate_lineage_response (some "k") (ModelReply.exn "down")
        (fun _ => Except.ok ([] : List Nat)) (fun _ => "[]")).cypher = "" ∧
    generate_lineage_response (some "k")
        (ModelReply.success (some "MATCH (n) RETURN n") "r")
        (fun _ => (Except.error "boom" : Except String (List Nat))) (fun _ => "[]") =
      { explanation := "Error executing Cypher on Neo4j: boom",
        cypher := "MATCH (n) RETURN n", modelCalls := 1, sessionsOpened := 1 } := by
  refine ⟨?_, ?_⟩
  · exact (c10_agent_characterization (some "k") (ModelReply.exn "down")
      (fun _ => Except.ok ([] : List Nat)) (fun _ => "[]")).1.mpr
      (Or.inr (Or.inr (Or.inl ⟨"down", rfl⟩)))
  · exact (c10_agent_characterization (some "k")
      (ModelReply.success (some "MATCH (n) RETURN n") "r")
      (fun _ => (Except.error "boom" : Except String (List Nat))) (fun _ => "[]")).2
      (some "MATCH (n) RETURN n") "r" "boom" rfl rfl rfl

end Catalog
